import Mathlib

/-!
Verification of the StretchBreak idle-monitoring engine
(`src/backend/idle_monitoring.rs`).

Time model: timestamps (`chrono::DateTime<Utc>`) and durations
(`chrono::Duration`) are modelled as integers counting milliseconds.
`Duration::seconds(n)` becomes `1000 * n`; `Duration::num_seconds`
truncates towards zero, which is `Int.div` on the millisecond count.
The idle sensor value (`u64` seconds) is a natural number.

The `IdleMonitor` struct holds collaborators (idle checker, clock) and the
aggregate `last_idle_info`.  Each Rust method is modelled as a function of
the aggregate `IdleInfo` plus the values sampled from the collaborators
during that call (the raw idle seconds and the clock time).
-/

namespace StretchBreak

def DEFAULT_TIME_TO_BREAK_SECS : Int := 20 * 60

def DEFAULT_BREAK_LENGTH_SECS : Int := 90

def REQUIRED_PREBREAK_IDLE_STREAK_SECONDS : Nat := 5

def FRAME_DROP_CUTOFF_POINT_SECS : Int := 30

def TRANSITION_THRESHOLD_SECS : Nat := 3

-- Max. number of seconds that may have elapsed since the last activity for
-- that activity to qualify an IdleGoingToActive -> Active transition.
def END_OF_ACTIVE_PUSHING_TRANSITION_WINDOW : Nat := TRANSITION_THRESHOLD_SECS - 2

/-- `chrono::Duration::seconds(n)` in milliseconds. -/
def durationSeconds (n : Int) : Int := 1000 * n

/-- `chrono::Duration::num_seconds` (truncation towards zero). -/
def numSeconds (d : Int) : Int := Int.tdiv d 1000

inductive DebouncedIdleState where
  | Idle (idle_since : Int)
  | IdleGoingToActive (idle_since : Int) (transitioning_since : Int)
  | ActiveGoingToIdle (active_since : Int) (transitioning_since : Int)
  | Active (active_since : Int)
deriving Repr, DecidableEq

def DebouncedIdleState.is_user_active : DebouncedIdleState → Bool
  | .Active _ => true
  | .ActiveGoingToIdle _ _ => true
  | .IdleGoingToActive _ _ => false
  | .Idle _ => false

inductive ModeState where
  | Normal (progress_towards_break : Int) (progress_towards_reset : Int)
      (idle_state : DebouncedIdleState)
  | PreBreak (started_at : Int)
  | Break (progress_towards_finish : Int) (idle_state : DebouncedIdleState)
deriving Repr, DecidableEq

inductive PresenceMode where
  | Active
  | SnoozedUntil (t : Int)
  | Muted
deriving Repr, DecidableEq

structure IdleInfo where
  idle_since_seconds : Nat
  last_checked : Int
  last_mode_state : ModeState
  reading_mode : Bool
  presence_mode : PresenceMode
  time_to_break_secs : Int
  break_length_secs : Int
  overrun : Int
deriving Repr, DecidableEq

def IdleInfo.is_muted (info : IdleInfo) : Bool :=
  match info.presence_mode with
  | .Active => false
  | .SnoozedUntil _ => true
  | .Muted => true

/-- The persisted snapshot (`PersistableState`), with the fields read and
written by `IdleMonitor` (`new` / `export_persistable_state`). -/
structure PersistableState where
  progress_towards_break : Int
  progress_towards_reset : Int
  last_checked : Int
  presence_mode : PresenceMode
  reading_mode : Bool
  time_to_break_secs : Int
  break_length_secs : Int
deriving Repr, DecidableEq

/-- `IdleMonitor::new`: the initial `last_idle_info`, from an optional
restored snapshot and the clock time at construction. -/
def IdleMonitor.new (restored_state : Option PersistableState) (time : Int) :
    IdleInfo :=
  let use_restored_timers : Bool :=
    match restored_state with
    | some state =>
        decide (time - state.last_checked + state.progress_towards_reset <
          durationSeconds DEFAULT_BREAK_LENGTH_SECS)
    | none => false
  { presence_mode :=
      match restored_state with
      | some state => state.presence_mode
      | none => PresenceMode.Active
    idle_since_seconds := 0
    last_checked := time
    last_mode_state := ModeState.Normal
      (match restored_state with
        | some state => if use_restored_timers then state.progress_towards_break else 0
        | none => 0)
      (match restored_state with
        | some state =>
            if use_restored_timers then
              let unconstrained_duration :=
                state.progress_towards_reset + (time - state.last_checked)
              if unconstrained_duration > durationSeconds DEFAULT_BREAK_LENGTH_SECS then
                durationSeconds DEFAULT_BREAK_LENGTH_SECS
              else
                unconstrained_duration
            else 0
        | none => 0)
      (if use_restored_timers then
        DebouncedIdleState.Idle
          (match restored_state with
            | some state => state.last_checked
            | none => time)
      else
        DebouncedIdleState.Active time)
    reading_mode :=
      match restored_state with
      | some state => state.reading_mode
      | none => false
    time_to_break_secs :=
      match restored_state with
      | some state => state.time_to_break_secs
      | none => DEFAULT_TIME_TO_BREAK_SECS
    break_length_secs :=
      match restored_state with
      | some state => state.break_length_secs
      | none => DEFAULT_BREAK_LENGTH_SECS
    overrun := 0 }

/-- `IdleMonitor::_make_debounced_idle_state`; `last` stands for
`self.last_idle_info` (only its `reading_mode` is read). -/
def _make_debounced_idle_state (last : IdleInfo) (idle_since_seconds : Nat)
    (last_idle_state : DebouncedIdleState) (time_since_last_check : Int)
    (check_time : Int) (start_of_transition_period : Int) (in_break : Bool) :
    DebouncedIdleState :=
  match last_idle_state with
  | .Active active_since =>
      if time_since_last_check > durationSeconds FRAME_DROP_CUTOFF_POINT_SECS then
        .Idle check_time
      else if idle_since_seconds = 0 then
        .Active active_since
      else if last.reading_mode && !in_break then
        .Active active_since
      else
        .ActiveGoingToIdle active_since check_time
  | .ActiveGoingToIdle active_since transitioning_since =>
      if time_since_last_check > durationSeconds FRAME_DROP_CUTOFF_POINT_SECS then
        .Idle check_time
      else if idle_since_seconds = 0 then
        .Active active_since
      else if idle_since_seconds ≤ TRANSITION_THRESHOLD_SECS then
        .ActiveGoingToIdle active_since transitioning_since
      else
        .Idle check_time
  | .IdleGoingToActive idle_since transitioning_since =>
      if idle_since_seconds ≤ END_OF_ACTIVE_PUSHING_TRANSITION_WINDOW ∧
          transitioning_since ≤ start_of_transition_period then
        .Active check_time
      else if transitioning_since ≤ start_of_transition_period then
        .Idle idle_since
      else
        .IdleGoingToActive idle_since transitioning_since
  | .Idle idle_since =>
      if idle_since_seconds = 0 then
        .IdleGoingToActive idle_since check_time
      else
        .Idle idle_since

/-- `IdleMonitor::_make_idle_info_in_normal_state`; `last` stands for
`self.last_idle_info` (read for the progress caps). -/
def _make_idle_info_in_normal_state (last : IdleInfo) (presence_mode : PresenceMode)
    (idle_since_seconds : Nat) (progress_towards_break : Int)
    (progress_towards_reset : Int) (prv_idle_state : DebouncedIdleState)
    (check_time : Int) (new_idle_state : DebouncedIdleState)
    (time_since_last_check : Int) (reading_mode : Bool)
    (time_to_break_secs : Int) (break_length_secs : Int) (overrun : Int) :
    IdleInfo :=
  { presence_mode := presence_mode
    idle_since_seconds := idle_since_seconds
    last_checked := check_time
    last_mode_state := ModeState.Normal
      (match prv_idle_state with
        | .Active _ | .ActiveGoingToIdle _ _ =>
            if time_since_last_check >
                durationSeconds FRAME_DROP_CUTOFF_POINT_SECS then
              progress_towards_break
            else
              min (durationSeconds last.time_to_break_secs)
                (progress_towards_break + time_since_last_check)
        | .Idle _ | .IdleGoingToActive _ _ =>
            if progress_towards_reset + time_since_last_check ≥
                durationSeconds last.break_length_secs then
              match new_idle_state with
              | .Idle _ | .IdleGoingToActive _ _ => 0
              | _ => progress_towards_break
            else
              min (durationSeconds last.time_to_break_secs)
                (progress_towards_break + time_since_last_check))
      (match new_idle_state with
        | .Idle idle_since =>
            if idle_since = check_time then 0
            else
              min (durationSeconds last.break_length_secs)
                (progress_towards_reset + time_since_last_check)
        | .Active _ | .ActiveGoingToIdle _ _ => 0
        | .IdleGoingToActive _ _ =>
            min (durationSeconds last.break_length_secs)
              (progress_towards_reset + time_since_last_check))
      new_idle_state
    reading_mode := reading_mode
    break_length_secs := break_length_secs
    time_to_break_secs := time_to_break_secs
    overrun := overrun }

/-- `IdleMonitor::_make_idle_info_in_prebreak_state`. -/
def _make_idle_info_in_prebreak_state (idle_since_seconds : Nat)
    (last_checked : Int) (waiting_since : Int) (presence_mode : PresenceMode)
    (reading_mode : Bool) (break_length_secs : Int) (time_to_break_secs : Int)
    (overrun : Int) : IdleInfo :=
  { idle_since_seconds := idle_since_seconds
    last_checked := last_checked
    last_mode_state := ModeState.PreBreak waiting_since
    presence_mode := presence_mode
    reading_mode := reading_mode
    break_length_secs := break_length_secs
    time_to_break_secs := time_to_break_secs
    overrun := overrun }

/-- `IdleMonitor::_make_idle_info_in_break_state`. -/
def _make_idle_info_in_break_state (idle_since_seconds : Nat)
    (last_checked : Int) (new_idle_state : DebouncedIdleState)
    (progress_towards_finish : Int) (time_since_last_check : Int)
    (presence_mode : PresenceMode) (reading_mode : Bool)
    (time_to_break_secs : Int) (break_length_secs : Int) (overrun : Int) :
    IdleInfo :=
  { idle_since_seconds := idle_since_seconds
    last_checked := last_checked
    last_mode_state := ModeState.Break
      (match new_idle_state with
        | .Idle _ | .IdleGoingToActive _ _ =>
            min (durationSeconds break_length_secs)
              (progress_towards_finish + time_since_last_check)
        | _ => progress_towards_finish)
      new_idle_state
    presence_mode := presence_mode
    reading_mode := reading_mode
    time_to_break_secs := time_to_break_secs
    break_length_secs := break_length_secs
    overrun := overrun }

/-- `IdleMonitor::refresh_idle_info`; `idle_since_seconds` and `check_time`
are the values sampled from the idle checker and the clock during the call. -/
def refresh_idle_info (last : IdleInfo) (idle_since_seconds : Nat)
    (check_time : Int) : IdleInfo :=
  let start_of_transition_period : Int :=
    check_time - durationSeconds (Int.ofNat TRANSITION_THRESHOLD_SECS)
  let time_since_last_check : Int := check_time - last.last_checked
  let new_presence_mode : PresenceMode :=
    match last.presence_mode with
    | .Active => .Active
    | .SnoozedUntil timestamp =>
        if timestamp < check_time then .Active else .SnoozedUntil timestamp
    | .Muted => .Muted
  match last.last_mode_state with
  | ModeState.Normal progress_towards_break progress_towards_reset idle_state =>
      if progress_towards_break + time_since_last_check ≥
            durationSeconds last.time_to_break_secs ∧
          time_since_last_check < durationSeconds FRAME_DROP_CUTOFF_POINT_SECS ∧
          ¬ last.is_muted then
        _make_idle_info_in_prebreak_state idle_since_seconds check_time
          check_time new_presence_mode last.reading_mode last.break_length_secs
          last.time_to_break_secs last.overrun
      else
        _make_idle_info_in_normal_state last new_presence_mode idle_since_seconds
          (if time_since_last_check > durationSeconds last.time_to_break_secs then
            0
          else
            progress_towards_break)
          progress_towards_reset idle_state check_time
          (_make_debounced_idle_state last idle_since_seconds idle_state
            time_since_last_check check_time start_of_transition_period false)
          time_since_last_check last.reading_mode last.time_to_break_secs
          last.break_length_secs
          (if numSeconds (progress_towards_reset + time_since_last_check) ≥
              last.break_length_secs then
            0
          else
            match idle_state with
            | .Active _ | .ActiveGoingToIdle _ _ =>
                if last.overrun = 0 ∧
                    numSeconds progress_towards_break < last.time_to_break_secs then
                  last.overrun
                else
                  last.overrun + (check_time - last.last_checked)
            | .Idle _ | .IdleGoingToActive _ _ => last.overrun)
  | ModeState.PreBreak started_at =>
      if last.is_muted then
        _make_idle_info_in_normal_state last new_presence_mode idle_since_seconds
          (durationSeconds last.time_to_break_secs) 0
          (DebouncedIdleState.Active check_time) check_time
          (_make_debounced_idle_state last idle_since_seconds
            (DebouncedIdleState.Active check_time) time_since_last_check
            check_time start_of_transition_period false)
          time_since_last_check last.reading_mode last.time_to_break_secs
          last.break_length_secs last.overrun
      else if REQUIRED_PREBREAK_IDLE_STREAK_SECONDS ≤ idle_since_seconds then
        { idle_since_seconds := idle_since_seconds
          last_checked := check_time
          last_mode_state := ModeState.Break 0
            (DebouncedIdleState.Idle
              (check_time - durationSeconds (Int.ofNat idle_since_seconds)))
          presence_mode := new_presence_mode
          reading_mode := last.reading_mode
          break_length_secs := last.break_length_secs
          time_to_break_secs := last.time_to_break_secs
          overrun := last.overrun + (check_time - last.last_checked) }
      else
        _make_idle_info_in_prebreak_state idle_since_seconds check_time
          started_at new_presence_mode last.reading_mode last.break_length_secs
          last.time_to_break_secs
          (last.overrun + (check_time - last.last_checked))
  | ModeState.Break progress_towards_finish idle_state =>
      if progress_towards_finish + time_since_last_check ≥
          durationSeconds last.break_length_secs then
        { idle_since_seconds := idle_since_seconds
          last_checked := check_time
          last_mode_state := ModeState.Normal 0
            (durationSeconds last.break_length_secs)
            (_make_debounced_idle_state last idle_since_seconds idle_state
              time_since_last_check check_time start_of_transition_period true)
          presence_mode := new_presence_mode
          reading_mode := last.reading_mode
          time_to_break_secs := last.time_to_break_secs
          break_length_secs := last.break_length_secs
          overrun := 0 }
      else
        _make_idle_info_in_break_state idle_since_seconds check_time
          (_make_debounced_idle_state last idle_since_seconds idle_state
            time_since_last_check check_time start_of_transition_period true)
          progress_towards_finish time_since_last_check new_presence_mode
          last.reading_mode last.time_to_break_secs last.break_length_secs
          (match idle_state with
            | .Active _ | .ActiveGoingToIdle _ _ =>
                last.overrun + (check_time - last.last_checked)
            | .Idle _ | .IdleGoingToActive _ _ => last.overrun)

/-- `IdleMonitor::snooze` (the disk write is outside the model). -/
def snooze (last : IdleInfo) (timestamp : Int) : IdleInfo :=
  { last with presence_mode := PresenceMode.SnoozedUntil timestamp }

/-- `IdleMonitor::mute`. -/
def mute (last : IdleInfo) : IdleInfo :=
  { last with presence_mode := PresenceMode.Muted }

/-- `IdleMonitor::unmute`. -/
def unmute (last : IdleInfo) : IdleInfo :=
  { last with presence_mode := PresenceMode.Active }

/-- The nested `map_debounced_idle_state` of `IdleMonitor::set_reading_mode`. -/
def map_debounced_idle_state (debounced_idle_state : DebouncedIdleState)
    (check_time : Int) : DebouncedIdleState :=
  match debounced_idle_state with
  | .Active active_since => .Active active_since
  | .ActiveGoingToIdle active_since _ => .Active active_since
  | .IdleGoingToActive _ _ | .Idle _ => .Active check_time

/-- `IdleMonitor::set_reading_mode`; `check_time` is the clock sample. -/
def set_reading_mode (last : IdleInfo) (reading_mode : Bool)
    (check_time : Int) : IdleInfo :=
  { idle_since_seconds := last.idle_since_seconds
    last_checked := last.last_checked
    last_mode_state :=
      match last.last_mode_state with
      | ModeState.Normal progress_towards_break progress_towards_reset idle_state =>
          ModeState.Normal progress_towards_break progress_towards_reset
            (map_debounced_idle_state idle_state check_time)
      | ModeState.PreBreak started_at => ModeState.PreBreak started_at
      | ModeState.Break progress_towards_finish idle_state =>
          ModeState.Break progress_towards_finish
            (map_debounced_idle_state idle_state check_time)
    reading_mode := reading_mode
    presence_mode := last.presence_mode
    time_to_break_secs := last.time_to_break_secs
    break_length_secs := last.break_length_secs
    overrun := last.overrun }

/-- `IdleMonitor::trigger_break` (reads no collaborator). -/
def trigger_break (last : IdleInfo) : IdleInfo :=
  match last.last_mode_state with
  | ModeState.Normal _ _ _ =>
      { idle_since_seconds := last.idle_since_seconds
        last_checked := last.last_checked
        last_mode_state := ModeState.Break 0
          (DebouncedIdleState.Idle last.last_checked)
        presence_mode := last.presence_mode
        reading_mode := last.reading_mode
        time_to_break_secs := last.time_to_break_secs
        break_length_secs := last.break_length_secs
        overrun := last.overrun }
  | _ => last

/-- `IdleMonitor::skip_break`; `check_time`/`idle_since_seconds` are the
clock and idle-checker samples taken during the call. -/
def skip_break (last : IdleInfo) (idle_since_seconds : Nat)
    (check_time : Int) : IdleInfo :=
  match last.last_mode_state with
  | ModeState.Break _ idle_state =>
      { idle_since_seconds := idle_since_seconds
        last_checked := check_time
        last_mode_state := ModeState.Normal 0 0 idle_state
        presence_mode := last.presence_mode
        reading_mode := last.reading_mode
        time_to_break_secs := last.time_to_break_secs
        break_length_secs := last.break_length_secs
        overrun := 0 }
  | _ => last

/-- `IdleMonitor::postpone_break`. -/
def postpone_break (last : IdleInfo) (postpone_duration : Int)
    (idle_since_seconds : Nat) (check_time : Int) : IdleInfo :=
  match last.last_mode_state with
  | ModeState.Break _ idle_state =>
      { idle_since_seconds := idle_since_seconds
        last_checked := check_time
        last_mode_state := ModeState.Normal
          (durationSeconds last.time_to_break_secs - postpone_duration) 0
          idle_state
        presence_mode := last.presence_mode
        reading_mode := last.reading_mode
        time_to_break_secs := last.time_to_break_secs
        break_length_secs := last.break_length_secs
        overrun := last.overrun }
  | _ => last

/-- `IdleMonitor::set_time_to_break`. -/
def set_time_to_break (last : IdleInfo) (num_secs : Int) : IdleInfo :=
  { last with
    time_to_break_secs := num_secs
    last_mode_state :=
      match last.last_mode_state with
      | ModeState.Normal progress_towards_break progress_towards_reset idle_state =>
          ModeState.Normal
            (durationSeconds (min (numSeconds progress_towards_break) num_secs))
            progress_towards_reset idle_state
      | ModeState.PreBreak started_at => ModeState.PreBreak started_at
      | ModeState.Break progress_towards_finish idle_state =>
          ModeState.Break progress_towards_finish idle_state }

/-- `IdleMonitor::set_break_length`. -/
def set_break_length (last : IdleInfo) (num_secs : Int) : IdleInfo :=
  { last with
    break_length_secs := num_secs
    last_mode_state :=
      match last.last_mode_state with
      | ModeState.Normal progress_towards_break progress_towards_reset idle_state =>
          ModeState.Normal progress_towards_break
            (durationSeconds (min (numSeconds progress_towards_reset) num_secs))
            idle_state
      | ModeState.PreBreak started_at => ModeState.PreBreak started_at
      | ModeState.Break progress_towards_finish idle_state =>
          ModeState.Break progress_towards_finish idle_state }

/-- `IdleMonitor::export_persistable_state`. -/
def export_persistable_state (last : IdleInfo) : PersistableState :=
  { progress_towards_break :=
      match last.last_mode_state with
      | ModeState.Normal progress_towards_break _ _ => progress_towards_break
      | _ => 0
    progress_towards_reset :=
      match last.last_mode_state with
      | ModeState.Normal _ progress_towards_reset _ => progress_towards_reset
      | _ => 0
    last_checked := last.last_checked
    presence_mode := last.presence_mode
    reading_mode := last.reading_mode
    time_to_break_secs := last.time_to_break_secs
    break_length_secs := last.break_length_secs }

/-! ### Derived predicates and reachability -/

def ModeState.isNormal : ModeState → Bool
  | .Normal _ _ _ => true
  | _ => false

def ModeState.isBreak : ModeState → Bool
  | .Break _ _ => true
  | _ => false

/-- The progress-counter bounds of the spec (section 3 / section 8). -/
def boundsOk (info : IdleInfo) : Bool :=
  match info.last_mode_state with
  | .Normal p r _ =>
      decide (0 ≤ p ∧ p ≤ durationSeconds info.time_to_break_secs ∧
        0 ≤ r ∧ r ≤ durationSeconds info.break_length_secs)
  | .PreBreak _ => true
  | .Break f _ =>
      decide (0 ≤ f ∧ f ≤ durationSeconds info.break_length_secs)

/-- The bounds that actually hold on the code: the Normal-mode reset counter
is only bounded by the larger of the configured break length and the default
one, because the restore path clamps against the default. -/
def boundsOkAmended (info : IdleInfo) : Bool :=
  match info.last_mode_state with
  | .Normal p r _ =>
      decide (0 ≤ p ∧ p ≤ durationSeconds info.time_to_break_secs ∧
        0 ≤ r ∧ r ≤ durationSeconds (max info.break_length_secs DEFAULT_BREAK_LENGTH_SECS))
  | .PreBreak _ => true
  | .Break f _ =>
      decide (0 ≤ f ∧ f ≤ durationSeconds info.break_length_secs)

/-- States reachable through the public operation surface, from a fresh or a
restored start.  The clock is monotonic (spec section 6), so every operation
that samples the clock sees a time at or after `last_checked`. -/
inductive Reachable : IdleInfo → Prop where
  | fresh (t : Int) : Reachable (IdleMonitor.new none t)
  | restored (s : PersistableState) (t : Int) (ht : s.last_checked ≤ t) :
      Reachable (IdleMonitor.new (some s) t)
  | refresh {info : IdleInfo} (iss : Nat) (t : Int) (h : Reachable info)
      (ht : info.last_checked ≤ t) : Reachable (refresh_idle_info info iss t)
  | trigger {info : IdleInfo} (h : Reachable info) :
      Reachable (trigger_break info)
  | skip {info : IdleInfo} (iss : Nat) (t : Int) (h : Reachable info)
      (ht : info.last_checked ≤ t) : Reachable (skip_break info iss t)
  | postpone {info : IdleInfo} (d : Int) (iss : Nat) (t : Int)
      (h : Reachable info) (ht : info.last_checked ≤ t) :
      Reachable (postpone_break info d iss t)
  | snoozeStep {info : IdleInfo} (ts : Int) (h : Reachable info) :
      Reachable (snooze info ts)
  | muteStep {info : IdleInfo} (h : Reachable info) : Reachable (mute info)
  | unmuteStep {info : IdleInfo} (h : Reachable info) : Reachable (unmute info)
  | setReading {info : IdleInfo} (b : Bool) (t : Int) (h : Reachable info)
      (ht : info.last_checked ≤ t) : Reachable (set_reading_mode info b t)
  | setTimeToBreak {info : IdleInfo} (n : Int) (h : Reachable info) :
      Reachable (set_time_to_break info n)
  | setBreakLength {info : IdleInfo} (n : Int) (h : Reachable info) :
      Reachable (set_break_length info n)

/-- Reachability restricted to well-behaved inputs: restored snapshots carry
in-bound timers and non-negative settings, postpone durations fit inside the
break interval, setter arguments are non-negative, and the break length is
not changed in the middle of a break (the code does not clamp
`progress_towards_finish`). -/
inductive ReachableSafe : IdleInfo → Prop where
  | fresh (t : Int) : ReachableSafe (IdleMonitor.new none t)
  | restored (s : PersistableState) (t : Int) (ht : s.last_checked ≤ t)
      (hwf : 0 ≤ s.progress_towards_break ∧
        s.progress_towards_break ≤ durationSeconds s.time_to_break_secs ∧
        0 ≤ s.progress_towards_reset ∧
        0 ≤ s.time_to_break_secs ∧ 0 ≤ s.break_length_secs) :
      ReachableSafe (IdleMonitor.new (some s) t)
  | refresh {info : IdleInfo} (iss : Nat) (t : Int) (h : ReachableSafe info)
      (ht : info.last_checked ≤ t) : ReachableSafe (refresh_idle_info info iss t)
  | trigger {info : IdleInfo} (h : ReachableSafe info) :
      ReachableSafe (trigger_break info)
  | skip {info : IdleInfo} (iss : Nat) (t : Int) (h : ReachableSafe info)
      (ht : info.last_checked ≤ t) : ReachableSafe (skip_break info iss t)
  | postpone {info : IdleInfo} (d : Int) (iss : Nat) (t : Int)
      (h : ReachableSafe info) (ht : info.last_checked ≤ t)
      (hd : 0 ≤ d ∧ d ≤ durationSeconds info.time_to_break_secs) :
      ReachableSafe (postpone_break info d iss t)
  | snoozeStep {info : IdleInfo} (ts : Int) (h : ReachableSafe info) :
      ReachableSafe (snooze info ts)
  | muteStep {info : IdleInfo} (h : ReachableSafe info) :
      ReachableSafe (mute info)
  | unmuteStep {info : IdleInfo} (h : ReachableSafe info) :
      ReachableSafe (unmute info)
  | setReading {info : IdleInfo} (b : Bool) (t : Int) (h : ReachableSafe info)
      (ht : info.last_checked ≤ t) : ReachableSafe (set_reading_mode info b t)
  | setTimeToBreak {info : IdleInfo} (n : Int) (h : ReachableSafe info)
      (hn : 0 ≤ n) : ReachableSafe (set_time_to_break info n)
  | setBreakLength {info : IdleInfo} (n : Int) (h : ReachableSafe info)
      (hn : 0 ≤ n) (hmode : info.last_mode_state.isBreak = false) :
      ReachableSafe (set_break_length info n)

/-- A sample state sitting in PreBreak mode, used by several witnesses. -/
def samplePreBreakInfo : IdleInfo :=
  { idle_since_seconds := 0
    last_checked := 0
    last_mode_state := ModeState.PreBreak 0
    reading_mode := false
    presence_mode := PresenceMode.Active
    time_to_break_secs := DEFAULT_TIME_TO_BREAK_SECS
    break_length_secs := DEFAULT_BREAK_LENGTH_SECS
    overrun := 0 }

/-- A sample state sitting in Normal mode. -/
def sampleNormalInfo : IdleInfo :=
  { idle_since_seconds := 0
    last_checked := 0
    last_mode_state := ModeState.Normal 20000 4000 (DebouncedIdleState.Active 0)
    reading_mode := false
    presence_mode := PresenceMode.Active
    time_to_break_secs := DEFAULT_TIME_TO_BREAK_SECS
    break_length_secs := DEFAULT_BREAK_LENGTH_SECS
    overrun := 0 }

/-! ### C7: manual overrides are no-ops outside their valid source mode -/

/-- C7: calling `trigger_break` when the mode is not Normal, or `skip_break` /
`postpone_break` when the mode is not Break, leaves the aggregate state
completely unchanged and returns a snapshot identical to the one before the
call (including `last_checked` and `idle_since_seconds`). -/
theorem noop_overrides_return_input (info : IdleInfo) (d : Int) (iss : Nat)
    (t : Int) :
    (info.last_mode_state.isNormal = false → trigger_break info = info) ∧
    (info.last_mode_state.isBreak = false →
      skip_break info iss t = info ∧ postpone_break info d iss t = info) := by
  rcases hm : info.last_mode_state with p | s | p <;>
    simp [trigger_break, skip_break, postpone_break, ModeState.isNormal,
      ModeState.isBreak, hm]

/-- Witness for C7 at a concrete PreBreak state. -/
theorem noop_overrides_return_input_witness :
    trigger_break samplePreBreakInfo = samplePreBreakInfo ∧
    skip_break samplePreBreakInfo 3 50 = samplePreBreakInfo ∧
    postpone_break samplePreBreakInfo 60000 3 50 = samplePreBreakInfo := by
  refine ⟨(noop_overrides_return_input samplePreBreakInfo 60000 3 50).1 (by decide),
    ((noop_overrides_return_input samplePreBreakInfo 60000 3 50).2 (by decide)).1,
    ((noop_overrides_return_input samplePreBreakInfo 60000 3 50).2 (by decide)).2⟩

/-! ### C8: frame-drop recovery in the debounce step -/

/-- C8: whenever the previous debounced state is Active or ActiveGoingToIdle
and the elapsed time since the last sample exceeds the 30 s frame-drop
cutoff, the debounce step forces `Idle{idle_since: sample_time}`, regardless
of the raw idle seconds. -/
theorem frame_drop_forces_idle (last : IdleInfo) (iss : Nat)
    (prv : DebouncedIdleState) (tslc ct sotp : Int) (ib : Bool)
    (hactive : prv.is_user_active = true)
    (hgap : durationSeconds FRAME_DROP_CUTOFF_POINT_SECS < tslc) :
    _make_debounced_idle_state last iss prv tslc ct sotp ib =
      DebouncedIdleState.Idle ct := by
  cases prv <;>
    simp_all [_make_debounced_idle_state, DebouncedIdleState.is_user_active]

/-- Witness for C8: a 31 s gap from an Active state with a zero idle reading. -/
theorem frame_drop_forces_idle_witness :
    (DebouncedIdleState.Active 0).is_user_active = true ∧
    _make_debounced_idle_state sampleNormalInfo 0 (DebouncedIdleState.Active 0)
      31000 31000 28000 false = DebouncedIdleState.Idle 31000 :=
  ⟨by decide,
    frame_drop_forces_idle sampleNormalInfo 0 (DebouncedIdleState.Active 0)
      31000 31000 28000 false (by decide) (by decide)⟩

/-! ### C9: frame effect of trigger_break in Normal mode -/

/-- C9: from Normal mode, `trigger_break` changes only `last_mode_state`
(to Break with zero finish progress and the debounced state seeded
`Idle{idle_since: last_checked}`); every other field of the snapshot,
`overrun` included, carries over unchanged. -/
theorem trigger_break_frame_effect (info : IdleInfo) (p r : Int)
    (i : DebouncedIdleState)
    (hm : info.last_mode_state = ModeState.Normal p r i) :
    trigger_break info =
      { info with
        last_mode_state := ModeState.Break 0
          (DebouncedIdleState.Idle info.last_checked) } := by
  simp [trigger_break, hm]

/-- Witness for C9 at a concrete Normal state. -/
theorem trigger_break_frame_effect_witness :
    trigger_break sampleNormalInfo =
      { sampleNormalInfo with
        last_mode_state := ModeState.Break 0
          (DebouncedIdleState.Idle sampleNormalInfo.last_checked) } :=
  trigger_break_frame_effect sampleNormalInfo 20000 4000
    (DebouncedIdleState.Active 0) (by decide)

/-! ### C10: refresh never changes the three setting fields -/

/-- C10: for every starting state and every pair of sampled inputs,
`refresh_idle_info` carries `reading_mode`, `time_to_break_secs` and
`break_length_secs` over verbatim in every mode branch. -/
theorem refresh_preserves_settings (info : IdleInfo) (iss : Nat) (t : Int) :
    (refresh_idle_info info iss t).reading_mode = info.reading_mode ∧
    (refresh_idle_info info iss t).time_to_break_secs = info.time_to_break_secs ∧
    (refresh_idle_info info iss t).break_length_secs = info.break_length_secs := by
  rcases hm : info.last_mode_state with p | s | p <;>
    simp only [refresh_idle_info, hm] <;>
    split_ifs <;>
    simp [_make_idle_info_in_normal_state, _make_idle_info_in_prebreak_state,
      _make_idle_info_in_break_state]

/-! ### Shared helper lemmas about restoring a snapshot -/

/-- The mode state produced by `IdleMonitor::new` from a snapshot: timers are
continued exactly when `elapsed + progress_towards_reset` is below the
DEFAULT break length. -/
theorem new_some_mode_eq (s : PersistableState) (t : Int) :
    (IdleMonitor.new (some s) t).last_mode_state =
      if t - s.last_checked + s.progress_towards_reset <
          durationSeconds DEFAULT_BREAK_LENGTH_SECS then
        ModeState.Normal s.progress_towards_break
          (min (durationSeconds DEFAULT_BREAK_LENGTH_SECS)
            (s.progress_towards_reset + (t - s.last_checked)))
          (DebouncedIdleState.Idle s.last_checked)
      else
        ModeState.Normal 0 0 (DebouncedIdleState.Active t) := by
  simp only [IdleMonitor.new]
  by_cases h : t - s.last_checked + s.progress_towards_reset <
      durationSeconds DEFAULT_BREAK_LENGTH_SECS
  · simp [h]
    omega
  · simp [h]

/-- The remaining fields produced by `IdleMonitor::new` from a snapshot are
carried over verbatim. -/
theorem new_some_fields (s : PersistableState) (t : Int) :
    (IdleMonitor.new (some s) t).presence_mode = s.presence_mode ∧
    (IdleMonitor.new (some s) t).reading_mode = s.reading_mode ∧
    (IdleMonitor.new (some s) t).time_to_break_secs = s.time_to_break_secs ∧
    (IdleMonitor.new (some s) t).break_length_secs = s.break_length_secs ∧
    (IdleMonitor.new (some s) t).last_checked = t ∧
    (IdleMonitor.new (some s) t).overrun = 0 := by
  simp [IdleMonitor.new]

/-! ### C2: export / restore round trip -/

/-- A reachable Normal-mode state holding full reset credit, as produced by a
Break → Normal transition (`progress_towards_reset = break_length_secs`). -/
def fullResetInfo : IdleInfo :=
  { idle_since_seconds := 0
    last_checked := 0
    last_mode_state := ModeState.Normal 0 90000 (DebouncedIdleState.Idle 0)
    reading_mode := false
    presence_mode := PresenceMode.Active
    time_to_break_secs := DEFAULT_TIME_TO_BREAK_SECS
    break_length_secs := DEFAULT_BREAK_LENGTH_SECS
    overrun := 0 }

/-- C2 counterexample: exporting a Normal state whose reset progress equals
the default break length and restoring it at the same clock time does not
reproduce the progress values — the restore condition
`0 + progress_towards_reset < DEFAULT_BREAK_LENGTH_SECS` fails, so both
counters restart at zero. -/
theorem roundtrip_full_reset_cex :
    (export_persistable_state fullResetInfo).progress_towards_reset = 90000 ∧
    (IdleMonitor.new (some (export_persistable_state fullResetInfo))
        fullResetInfo.last_checked).last_mode_state =
      ModeState.Normal 0 0 (DebouncedIdleState.Active 0) := by
  decide

/-- C2 (amended): for every Normal-mode state, exporting and restoring at the
same clock time always reproduces `presence_mode` and `reading_mode`; it
reproduces `progress_towards_break` and `progress_towards_reset` exactly when
the exported reset progress is below the default break length (90 s),
otherwise both counters restart at zero. -/
theorem roundtrip_normal_characterised (info : IdleInfo) (p r : Int)
    (i : DebouncedIdleState)
    (hm : info.last_mode_state = ModeState.Normal p r i) :
    (IdleMonitor.new (some (export_persistable_state info))
        info.last_checked).presence_mode = info.presence_mode ∧
    (IdleMonitor.new (some (export_persistable_state info))
        info.last_checked).reading_mode = info.reading_mode ∧
    (r < durationSeconds DEFAULT_BREAK_LENGTH_SECS →
      (IdleMonitor.new (some (export_persistable_state info))
          info.last_checked).last_mode_state =
        ModeState.Normal p r (DebouncedIdleState.Idle info.last_checked)) ∧
    (durationSeconds DEFAULT_BREAK_LENGTH_SECS ≤ r →
      (IdleMonitor.new (some (export_persistable_state info))
          info.last_checked).last_mode_state =
        ModeState.Normal 0 0 (DebouncedIdleState.Active info.last_checked)) := by
  have hexp : export_persistable_state info =
      { progress_towards_break := p, progress_towards_reset := r,
        last_checked := info.last_checked,
        presence_mode := info.presence_mode,
        reading_mode := info.reading_mode,
        time_to_break_secs := info.time_to_break_secs,
        break_length_secs := info.break_length_secs } := by
    simp [export_persistable_state, hm]
  refine ⟨((new_some_fields _ _).1).trans (by rw [hexp]),
    ((new_some_fields _ _).2.1).trans (by rw [hexp]), ?_, ?_⟩
  · intro hr
    rw [new_some_mode_eq, hexp]
    rw [if_pos (by simp; omega)]
    simp
    omega
  · intro hr
    rw [new_some_mode_eq, hexp]
    rw [if_neg (by simp; omega)]

/-- Witness for C2 at a concrete Normal state with small reset progress. -/
theorem roundtrip_normal_characterised_witness :
    (IdleMonitor.new (some (export_persistable_state sampleNormalInfo))
        sampleNormalInfo.last_checked).presence_mode =
      sampleNormalInfo.presence_mode ∧
    (IdleMonitor.new (some (export_persistable_state sampleNormalInfo))
        sampleNormalInfo.last_checked).last_mode_state =
      ModeState.Normal 20000 4000
        (DebouncedIdleState.Idle sampleNormalInfo.last_checked) :=
  ⟨(roundtrip_normal_characterised sampleNormalInfo 20000 4000
      (DebouncedIdleState.Active 0) (by decide)).1,
    (roundtrip_normal_characterised sampleNormalInfo 20000 4000
      (DebouncedIdleState.Active 0) (by decide)).2.2.1 (by decide)⟩

/-! ### C3: restore policy on startup -/

/-- A snapshot whose configured break length (1000 s) differs from the
default (90 s), exposing which one the restore policy actually uses. -/
def longBreakSnapshot : PersistableState :=
  { progress_towards_break := 5000
    progress_towards_reset := 0
    last_checked := 0
    presence_mode := PresenceMode.Active
    reading_mode := false
    time_to_break_secs := DEFAULT_TIME_TO_BREAK_SECS
    break_length_secs := 1000 }

/-- C3 counterexample: restoring `longBreakSnapshot` 100 s after its
`last_checked` satisfies the claim's continue condition
`elapsed + progress_towards_reset < break_length_secs` (100 s < 1000 s), yet
the code starts with a clean slate, because it compares against the default
90 s break length, not the snapshot's. -/
theorem restore_break_length_cex :
    (100000 : Int) - longBreakSnapshot.last_checked +
        longBreakSnapshot.progress_towards_reset <
      durationSeconds longBreakSnapshot.break_length_secs ∧
    (IdleMonitor.new (some longBreakSnapshot) 100000).last_mode_state =
      ModeState.Normal 0 0 (DebouncedIdleState.Active 100000) := by
  decide

/-- C3 (amended): the restored timers are continued if and only if
`elapsed + snapshot.progress_towards_reset < DEFAULT_BREAK_LENGTH_SECS`
(the 90 s default, not the snapshot's configured break length); when
continuing, `progress_towards_reset` is recomputed as
`min(DEFAULT_BREAK_LENGTH_SECS, snapshot.progress_towards_reset + elapsed)`
and the debounced state seeds `Idle{idle_since: snapshot.last_checked}`;
otherwise both counters start at zero with debounced state Active from now. -/
theorem restore_policy_characterised (s : PersistableState) (t : Int) :
    (IdleMonitor.new (some s) t).last_mode_state =
      if t - s.last_checked + s.progress_towards_reset <
          durationSeconds DEFAULT_BREAK_LENGTH_SECS then
        ModeState.Normal s.progress_towards_break
          (min (durationSeconds DEFAULT_BREAK_LENGTH_SECS)
            (s.progress_towards_reset + (t - s.last_checked)))
          (DebouncedIdleState.Idle s.last_checked)
      else
        ModeState.Normal 0 0 (DebouncedIdleState.Active t) :=
  new_some_mode_eq s t

/-! ### C4: mute / snooze during PreBreak -/

/-- C4 counterexample: `mute` called in PreBreak mode returns a snapshot that
is still in PreBreak mode — the abort to Normal does not happen in the same
call, contrary to the claim. -/
theorem mute_returns_prebreak_cex :
    (mute samplePreBreakInfo).last_mode_state = ModeState.PreBreak 0 ∧
    ModeState.isNormal (mute samplePreBreakInfo).last_mode_state = false ∧
    (mute samplePreBreakInfo).presence_mode = PresenceMode.Muted := by
  decide

/-- Auxiliary: a refresh tick on a muted (or snoozed) PreBreak state aborts
to Normal with full break credit and zero reset progress. -/
theorem refresh_prebreak_muted_aux (info : IdleInfo) (st : Int) (iss : Nat)
    (t : Int) (hm : info.last_mode_state = ModeState.PreBreak st)
    (hmuted : info.is_muted = true) (ht : info.last_checked ≤ t) :
    ∃ ist, (refresh_idle_info info iss t).last_mode_state =
      ModeState.Normal (durationSeconds info.time_to_break_secs) 0 ist := by
  simp only [refresh_idle_info, hm, hmuted, if_true]
  simp only [_make_idle_info_in_normal_state, _make_debounced_idle_state]
  split_ifs <;> simp_all

/-- C4 (amended): from PreBreak, `mute` (and `snooze`) change only
`presence_mode` and return a snapshot still in PreBreak mode; the abort to
Normal — with `progress_towards_break = time_to_break_secs` (full credit) and
`progress_towards_reset = 0` — happens on the next refresh tick. -/
theorem mute_snooze_prebreak_abort (info : IdleInfo) (st : Int) (iss : Nat)
    (t ts : Int) (hm : info.last_mode_state = ModeState.PreBreak st)
    (ht : info.last_checked ≤ t) :
    ((mute info).last_mode_state = ModeState.PreBreak st ∧
      (mute info).presence_mode = PresenceMode.Muted) ∧
    ((snooze info ts).last_mode_state = ModeState.PreBreak st ∧
      (snooze info ts).presence_mode = PresenceMode.SnoozedUntil ts) ∧
    (∃ ist, (refresh_idle_info (mute info) iss t).last_mode_state =
      ModeState.Normal (durationSeconds info.time_to_break_secs) 0 ist) ∧
    (∃ ist, (refresh_idle_info (snooze info ts) iss t).last_mode_state =
      ModeState.Normal (durationSeconds info.time_to_break_secs) 0 ist) := by
  refine ⟨⟨by simp [mute, hm], by simp [mute]⟩,
    ⟨by simp [snooze, hm], by simp [snooze]⟩, ?_, ?_⟩
  · exact refresh_prebreak_muted_aux (mute info) st iss t (by simp [mute, hm])
      (by simp [mute, IdleInfo.is_muted]) (by simpa [mute] using ht)
  · exact refresh_prebreak_muted_aux (snooze info ts) st iss t
      (by simp [snooze, hm]) (by simp [snooze, IdleInfo.is_muted])
      (by simpa [snooze] using ht)

/-- Witness for C4 at a concrete PreBreak state. -/
theorem mute_snooze_prebreak_abort_witness :
    ((mute samplePreBreakInfo).last_mode_state = ModeState.PreBreak 0 ∧
      (mute samplePreBreakInfo).presence_mode = PresenceMode.Muted) ∧
    (∃ ist, (refresh_idle_info (mute samplePreBreakInfo) 0 1000).last_mode_state =
      ModeState.Normal (durationSeconds samplePreBreakInfo.time_to_break_secs)
        0 ist) :=
  ⟨(mute_snooze_prebreak_abort samplePreBreakInfo 0 0 1000 5000 (by decide)
      (by decide)).1,
    (mute_snooze_prebreak_abort samplePreBreakInfo 0 0 1000 5000 (by decide)
      (by decide)).2.2.1⟩

/-! ### C5: expired snooze promotion on a tick -/

/-- A Normal-mode state with full break progress whose snooze expired at
timestamp 1000. -/
def expiredSnoozeInfo : IdleInfo :=
  { idle_since_seconds := 0
    last_checked := 0
    last_mode_state := ModeState.Normal 1200000 0 (DebouncedIdleState.Active 0)
    reading_mode := false
    presence_mode := PresenceMode.SnoozedUntil 1000
    time_to_break_secs := DEFAULT_TIME_TO_BREAK_SECS
    break_length_secs := DEFAULT_BREAK_LENGTH_SECS
    overrun := 0 }

/-- C5 counterexample: at time 2000 the snooze (until 1000) is expired and
`progress_towards_break + elapsed >= time_to_break_secs` with elapsed below
the frame-drop cutoff, yet the tick does NOT transition to PreBreak: the
PreBreak gate still sees the pre-promotion presence mode.  The transition
only fires on the following tick. -/
theorem snooze_expiry_same_tick_cex :
    (refresh_idle_info expiredSnoozeInfo 0 2000).presence_mode =
      PresenceMode.Active ∧
    ModeState.isNormal
      (refresh_idle_info expiredSnoozeInfo 0 2000).last_mode_state = true ∧
    (refresh_idle_info (refresh_idle_info expiredSnoozeInfo 0 2000) 0
        3000).last_mode_state = ModeState.PreBreak 3000 := by
  decide

/-- C5 (amended): on a tick where `presence_mode = SnoozedUntil(t)` with
`t < now`, the returned snapshot's presence mode is promoted to Active, but
the Normal → PreBreak gate of that same tick still evaluates the
pre-promotion (snoozed) presence, so the tick always stays in Normal mode;
the PreBreak transition can fire at the earliest on the next tick. -/
theorem snooze_promotion_one_tick_late (info : IdleInfo) (p r : Int)
    (i : DebouncedIdleState) (iss : Nat) (t ts : Int)
    (hm : info.last_mode_state = ModeState.Normal p r i)
    (hp : info.presence_mode = PresenceMode.SnoozedUntil ts)
    (hexp : ts < t) :
    (refresh_idle_info info iss t).presence_mode = PresenceMode.Active ∧
    ModeState.isNormal
      (refresh_idle_info info iss t).last_mode_state = true := by
  have hmuted : info.is_muted = true := by simp [IdleInfo.is_muted, hp]
  simp only [refresh_idle_info, hm, hp]
  rw [if_neg (by simp [hmuted])]
  constructor
  · simp [_make_idle_info_in_normal_state, if_pos hexp]
  · simp [_make_idle_info_in_normal_state, ModeState.isNormal]

/-- Witness for C5 at the concrete expired-snooze state. -/
theorem snooze_promotion_one_tick_late_witness :
    (refresh_idle_info expiredSnoozeInfo 0 2000).presence_mode =
      PresenceMode.Active ∧
    ModeState.isNormal
      (refresh_idle_info expiredSnoozeInfo 0 2000).last_mode_state = true :=
  snooze_promotion_one_tick_late expiredSnoozeInfo 1200000 0
    (DebouncedIdleState.Active 0) 0 2000 1000 (by decide) (by decide)
    (by decide)

/-! ### C6: progress advance in Normal mode -/

/-- A Normal-mode state that has been debounced-Idle for a while, with no
reset credit yet. -/
def idleAccumInfo : IdleInfo :=
  { idle_since_seconds := 5
    last_checked := 0
    last_mode_state := ModeState.Normal 0 0 (DebouncedIdleState.Idle 0)
    reading_mode := false
    presence_mode := PresenceMode.Active
    time_to_break_secs := DEFAULT_TIME_TO_BREAK_SECS
    break_length_secs := DEFAULT_BREAK_LENGTH_SECS
    overrun := 0 }

/-- C6 counterexample: on a 5 s tick with the debounced state Idle throughout
and `progress_towards_reset + elapsed` still below the break length,
`progress_towards_break` advances from 0 to 5000 ms — it does not stay
unchanged as the claim requires for idle ticks. -/
theorem idle_tick_advances_progress_cex :
    (refresh_idle_info idleAccumInfo 5 5000).last_mode_state =
      ModeState.Normal 5000 5000 (DebouncedIdleState.Idle 0) ∧
    (5000 : Int) ≠ 0 := by
  decide

/-- The `progress_towards_break` counter of a Normal mode state (0 in the
other modes). -/
def normalProgressTowardsBreak : ModeState → Int
  | .Normal p _ _ => p
  | _ => 0

/-- C6 (amended): on a non-PreBreak, non-frame-drop Normal tick with elapsed
time `Δ` at most `time_to_break_secs`, `progress_towards_break` advances by
`Δ` capped at `time_to_break_secs` whenever the previous debounced state is
Active/ActiveGoingToIdle, AND ALSO whenever it is Idle/IdleGoingToActive with
`progress_towards_reset + Δ` still below `break_length_secs`; only when the
previous state is idle and `progress_towards_reset + Δ` has reached
`break_length_secs` does it reset to 0 (new state still idle) or stay
unchanged (new state active). -/
theorem normal_progress_towards_break_update (info : IdleInfo) (p r : Int)
    (i : DebouncedIdleState) (iss : Nat) (t : Int)
    (hm : info.last_mode_state = ModeState.Normal p r i)
    (ht : info.last_checked ≤ t)
    (hframe : t - info.last_checked ≤ durationSeconds FRAME_DROP_CUTOFF_POINT_SECS)
    (hsmall : t - info.last_checked ≤ durationSeconds info.time_to_break_secs)
    (hguard : ¬ (p + (t - info.last_checked) ≥
        durationSeconds info.time_to_break_secs ∧
      t - info.last_checked < durationSeconds FRAME_DROP_CUTOFF_POINT_SECS ∧
      ¬ info.is_muted)) :
    ModeState.isNormal (refresh_idle_info info iss t).last_mode_state = true ∧
    normalProgressTowardsBreak (refresh_idle_info info iss t).last_mode_state =
      (if i.is_user_active then
        min (durationSeconds info.time_to_break_secs)
          (p + (t - info.last_checked))
      else if r + (t - info.last_checked) ≥
          durationSeconds info.break_length_secs then
        (if (_make_debounced_idle_state info iss i (t - info.last_checked) t
            (t - durationSeconds (Int.ofNat TRANSITION_THRESHOLD_SECS))
            false).is_user_active then
          p
        else 0)
      else
        min (durationSeconds info.time_to_break_secs)
          (p + (t - info.last_checked))) := by
  simp only [refresh_idle_info, hm, if_neg hguard]
  rw [if_neg (by omega)]
  constructor
  · simp [_make_idle_info_in_normal_state, ModeState.isNormal]
  · simp only [_make_idle_info_in_normal_state, normalProgressTowardsBreak]
    generalize _make_debounced_idle_state info iss i (t - info.last_checked) t
        (t - durationSeconds (Int.ofNat TRANSITION_THRESHOLD_SECS)) false = ni
    rcases i with c | ⟨c, d⟩ | ⟨c, d⟩ | c <;>
      rcases ni with a | ⟨a, b⟩ | ⟨a, b⟩ | a
    all_goals simp only [DebouncedIdleState.is_user_active, min_def]
    all_goals split_ifs
    all_goals first
      | rfl
      | omega
      | contradiction

/-- Witness for C6 at the concrete idle-accumulation state. -/
theorem normal_progress_towards_break_update_witness :
    ModeState.isNormal
        (refresh_idle_info idleAccumInfo 5 5000).last_mode_state = true ∧
    normalProgressTowardsBreak
        (refresh_idle_info idleAccumInfo 5 5000).last_mode_state =
      (if (DebouncedIdleState.Idle 0).is_user_active then
        min (durationSeconds idleAccumInfo.time_to_break_secs)
          (0 + (5000 - idleAccumInfo.last_checked))
      else if 0 + ((5000 : Int) - idleAccumInfo.last_checked) ≥
          durationSeconds idleAccumInfo.break_length_secs then
        (if (_make_debounced_idle_state idleAccumInfo 5
            (DebouncedIdleState.Idle 0) (5000 - idleAccumInfo.last_checked)
            5000 (5000 - durationSeconds (Int.ofNat TRANSITION_THRESHOLD_SECS))
            false).is_user_active then
          (0 : Int)
        else 0)
      else
        min (durationSeconds idleAccumInfo.time_to_break_secs)
          (0 + (5000 - idleAccumInfo.last_checked))) :=
  normal_progress_towards_break_update idleAccumInfo 0 0
    (DebouncedIdleState.Idle 0) 5 5000 (by decide) (by decide) (by decide)
    (by decide) (by decide)

/-! ### C1: progress-counter bounds over reachable states -/

/-- The inductive invariant: non-negative settings plus the amended bounds. -/
def EngineInv (info : IdleInfo) : Prop :=
  0 ≤ info.time_to_break_secs ∧ 0 ≤ info.break_length_secs ∧
  boundsOkAmended info = true

/-- The fresh start satisfies the invariant. -/
theorem inv_new_none (t : Int) : EngineInv (IdleMonitor.new none t) := by
  refine ⟨by norm_num [IdleMonitor.new, DEFAULT_TIME_TO_BREAK_SECS],
    by norm_num [IdleMonitor.new, DEFAULT_BREAK_LENGTH_SECS], ?_⟩
  simp [IdleMonitor.new, boundsOkAmended, durationSeconds,
    DEFAULT_TIME_TO_BREAK_SECS, DEFAULT_BREAK_LENGTH_SECS]

/-- A restore from a well-formed snapshot satisfies the invariant. -/
theorem inv_new_some (s : PersistableState) (t : Int) (ht : s.last_checked ≤ t)
    (hwf : 0 ≤ s.progress_towards_break ∧
      s.progress_towards_break ≤ durationSeconds s.time_to_break_secs ∧
      0 ≤ s.progress_towards_reset ∧
      0 ≤ s.time_to_break_secs ∧ 0 ≤ s.break_length_secs) :
    EngineInv (IdleMonitor.new (some s) t) := by
  obtain ⟨hfp, hfr, hfttb, hfbl, hflc, hfov⟩ := new_some_fields s t
  refine ⟨by rw [hfttb]; exact hwf.2.2.2.1, by rw [hfbl]; exact hwf.2.2.2.2, ?_⟩
  unfold boundsOkAmended
  rw [new_some_mode_eq, hfttb, hfbl]
  simp only [durationSeconds, DEFAULT_BREAK_LENGTH_SECS] at hwf ⊢
  split_ifs <;> simp <;> omega

/-- The Normal-mode constructor helper preserves the invariant, provided the
progress arguments are within bounds and the tick is non-negative. -/
theorem inv_normal_helper (last : IdleInfo) (pm : PresenceMode) (iss : Nat)
    (p r : Int) (prv newi : DebouncedIdleState) (ct tslc : Int) (rm : Bool)
    (ov : Int) (httb : 0 ≤ last.time_to_break_secs)
    (hbl : 0 ≤ last.break_length_secs)
    (hp : 0 ≤ p ∧ p ≤ durationSeconds last.time_to_break_secs)
    (hr : 0 ≤ r) (hΔ : 0 ≤ tslc) :
    EngineInv (_make_idle_info_in_normal_state last pm iss p r prv ct newi
      tslc rm last.time_to_break_secs last.break_length_secs ov) := by
  refine ⟨httb, hbl, ?_⟩
  simp only [_make_idle_info_in_normal_state, boundsOkAmended]
  rcases prv with a | ⟨a, b⟩ | ⟨a, b⟩ | a <;>
    rcases newi with c | ⟨c, d⟩ | ⟨c, d⟩ | c <;>
    simp only [durationSeconds, DEFAULT_BREAK_LENGTH_SECS, min_def] at hp ⊢ <;>
    split_ifs <;>
    simp only [decide_eq_true_eq] <;>
    omega

/-- The Break-mode constructor helper preserves the invariant, provided the
finish progress is within bounds and the tick is non-negative. -/
theorem inv_break_helper (iss : Nat) (ct : Int) (newi : DebouncedIdleState)
    (f tslc : Int) (pm : PresenceMode) (rm : Bool) (ttb bl ov : Int)
    (httb : 0 ≤ ttb) (hbl : 0 ≤ bl)
    (hf : 0 ≤ f ∧ f ≤ durationSeconds bl) (hΔ : 0 ≤ tslc) :
    EngineInv (_make_idle_info_in_break_state iss ct newi f tslc pm rm ttb bl
      ov) := by
  refine ⟨httb, hbl, ?_⟩
  simp only [_make_idle_info_in_break_state, boundsOkAmended]
  rcases newi with c | ⟨c, d⟩ | ⟨c, d⟩ | c <;>
    simp only [durationSeconds, min_def] at hf ⊢ <;>
    (try split_ifs) <;>
    simp only [decide_eq_true_eq] <;>
    omega

/-- `refresh_idle_info` preserves the invariant under a monotonic clock. -/
theorem inv_refresh (info : IdleInfo) (iss : Nat) (t : Int)
    (hinv : EngineInv info) (ht : info.last_checked ≤ t) :
    EngineInv (refresh_idle_info info iss t) := by
  obtain ⟨httb, hbl, hbounds⟩ := hinv
  rcases hm : info.last_mode_state with ⟨p, r, i⟩ | st | ⟨f, i⟩
  · -- Normal mode
    simp only [boundsOkAmended, hm, decide_eq_true_eq] at hbounds
    simp only [refresh_idle_info, hm]
    by_cases hguard : p + (t - info.last_checked) ≥
        durationSeconds info.time_to_break_secs ∧
      t - info.last_checked < durationSeconds FRAME_DROP_CUTOFF_POINT_SECS ∧
      ¬ info.is_muted = true
    · rw [if_pos hguard]
      exact ⟨httb, hbl, rfl⟩
    · rw [if_neg hguard]
      by_cases hbig : t - info.last_checked >
          durationSeconds info.time_to_break_secs
      · rw [if_pos hbig]
        exact inv_normal_helper info _ iss 0 r i _ t (t - info.last_checked)
          info.reading_mode _ httb hbl
          ⟨le_refl 0, by simp only [durationSeconds]; omega⟩
          (by omega) (by omega)
      · rw [if_neg hbig]
        exact inv_normal_helper info _ iss p r i _ t (t - info.last_checked)
          info.reading_mode _ httb hbl ⟨by omega, by omega⟩ (by omega)
          (by omega)
  · -- PreBreak mode
    simp only [refresh_idle_info, hm]
    by_cases hmut : info.is_muted = true
    · rw [if_pos hmut]
      exact inv_normal_helper info _ iss
        (durationSeconds info.time_to_break_secs) 0
        (DebouncedIdleState.Active t) _ t (t - info.last_checked)
        info.reading_mode _ httb hbl
        ⟨by simp only [durationSeconds]; omega, le_refl _⟩ (le_refl 0)
        (by omega)
    · rw [if_neg hmut]
      by_cases hstreak : REQUIRED_PREBREAK_IDLE_STREAK_SECONDS ≤ iss
      · rw [if_pos hstreak]
        refine ⟨httb, hbl, ?_⟩
        simp [boundsOkAmended, durationSeconds]
        omega
      · rw [if_neg hstreak]
        exact ⟨httb, hbl, rfl⟩
  · -- Break mode
    simp only [boundsOkAmended, hm, decide_eq_true_eq] at hbounds
    simp only [refresh_idle_info, hm]
    by_cases hdone : f + (t - info.last_checked) ≥
        durationSeconds info.break_length_secs
    · rw [if_pos hdone]
      refine ⟨httb, hbl, ?_⟩
      simp [boundsOkAmended, durationSeconds, DEFAULT_BREAK_LENGTH_SECS]
      omega
    · rw [if_neg hdone]
      exact inv_break_helper iss t _ f (t - info.last_checked) _
        info.reading_mode _ _ _ httb hbl ⟨by omega, by omega⟩ (by omega)

/-- `trigger_break` preserves the invariant. -/
theorem inv_trigger (info : IdleInfo) (hinv : EngineInv info) :
    EngineInv (trigger_break info) := by
  obtain ⟨httb, hbl, hbounds⟩ := hinv
  rcases hm : info.last_mode_state with ⟨p, r, i⟩ | st | ⟨f, i⟩ <;>
    simp only [trigger_break, hm]
  · exact ⟨httb, hbl, by
      simp only [boundsOkAmended, decide_eq_true_eq, durationSeconds]
      omega⟩
  · exact ⟨httb, hbl, hbounds⟩
  · exact ⟨httb, hbl, hbounds⟩

/-- `skip_break` preserves the invariant. -/
theorem inv_skip (info : IdleInfo) (iss : Nat) (t : Int)
    (hinv : EngineInv info) : EngineInv (skip_break info iss t) := by
  obtain ⟨httb, hbl, hbounds⟩ := hinv
  rcases hm : info.last_mode_state with ⟨p, r, i⟩ | st | ⟨f, i⟩ <;>
    simp only [skip_break, hm]
  · exact ⟨httb, hbl, hbounds⟩
  · exact ⟨httb, hbl, hbounds⟩
  · exact ⟨httb, hbl, by
      simp only [boundsOkAmended, decide_eq_true_eq, durationSeconds]
      omega⟩

/-- `postpone_break` preserves the invariant when the postponed duration is
between 0 and the configured break interval. -/
theorem inv_postpone (info : IdleInfo) (d : Int) (iss : Nat) (t : Int)
    (hinv : EngineInv info)
    (hd : 0 ≤ d ∧ d ≤ durationSeconds info.time_to_break_secs) :
    EngineInv (postpone_break info d iss t) := by
  obtain ⟨httb, hbl, hbounds⟩ := hinv
  rcases hm : info.last_mode_state with ⟨p, r, i⟩ | st | ⟨f, i⟩ <;>
    simp only [postpone_break, hm]
  · exact ⟨httb, hbl, hbounds⟩
  · exact ⟨httb, hbl, hbounds⟩
  · refine ⟨httb, hbl, ?_⟩
    simp only [durationSeconds] at hd
    simp only [boundsOkAmended, decide_eq_true_eq, durationSeconds]
    omega

/-- The presence operations preserve the invariant (they change only
`presence_mode`). -/
theorem inv_presence (info : IdleInfo) (ts : Int) (hinv : EngineInv info) :
    EngineInv (snooze info ts) ∧ EngineInv (mute info) ∧
    EngineInv (unmute info) :=
  ⟨hinv, hinv, hinv⟩

/-- `set_reading_mode` preserves the invariant (the progress counters and
settings are untouched). -/
theorem inv_set_reading (info : IdleInfo) (b : Bool) (t : Int)
    (hinv : EngineInv info) : EngineInv (set_reading_mode info b t) := by
  obtain ⟨httb, hbl, hbounds⟩ := hinv
  rcases hm : info.last_mode_state with ⟨p, r, i⟩ | st | ⟨f, i⟩ <;>
    simp only [boundsOkAmended, hm, decide_eq_true_eq] at hbounds <;>
    refine ⟨httb, hbl, ?_⟩ <;>
    simp only [set_reading_mode, hm, boundsOkAmended, decide_eq_true_eq] <;>
    exact hbounds

/-- `set_time_to_break` with a non-negative argument preserves the
invariant: the Normal-mode break progress is clamped to the new ceiling. -/
theorem inv_set_time_to_break (info : IdleInfo) (n : Int)
    (hinv : EngineInv info) (hn : 0 ≤ n) :
    EngineInv (set_time_to_break info n) := by
  obtain ⟨httb, hbl, hbounds⟩ := hinv
  rcases hm : info.last_mode_state with ⟨p, r, i⟩ | st | ⟨f, i⟩ <;>
    simp only [boundsOkAmended, hm, decide_eq_true_eq] at hbounds <;>
    refine ⟨hn, hbl, ?_⟩ <;>
    simp only [set_time_to_break, hm, boundsOkAmended, decide_eq_true_eq]
  · have htd : 0 ≤ Int.tdiv p 1000 := Int.tdiv_nonneg hbounds.1 (by norm_num)
    simp only [durationSeconds, numSeconds, min_def] at *
    split_ifs <;> omega
  · exact hbounds

/-- `set_break_length` with a non-negative argument, called outside Break
mode, preserves the invariant: the Normal-mode reset progress is clamped to
the new ceiling. -/
theorem inv_set_break_length (info : IdleInfo) (n : Int)
    (hinv : EngineInv info) (hn : 0 ≤ n)
    (hmode : info.last_mode_state.isBreak = false) :
    EngineInv (set_break_length info n) := by
  obtain ⟨httb, hbl, hbounds⟩ := hinv
  rcases hm : info.last_mode_state with ⟨p, r, i⟩ | st | ⟨f, i⟩
  · simp only [boundsOkAmended, hm, decide_eq_true_eq] at hbounds
    refine ⟨httb, hn, ?_⟩
    simp only [set_break_length, hm, boundsOkAmended, decide_eq_true_eq]
    have htd : 0 ≤ Int.tdiv r 1000 := Int.tdiv_nonneg hbounds.2.2.1 (by norm_num)
    simp only [durationSeconds, numSeconds, min_def, max_def] at *
    split_ifs <;> omega
  · exact ⟨httb, hn, by simp [set_break_length, hm, boundsOkAmended]⟩
  · rw [hm] at hmode
    simp [ModeState.isBreak] at hmode

/-- Every safely-reachable state satisfies the invariant. -/
theorem engineInv_of_reachableSafe {info : IdleInfo}
    (h : ReachableSafe info) : EngineInv info := by
  induction h with
  | fresh t => exact inv_new_none t
  | restored s t ht hwf => exact inv_new_some s t ht hwf
  | refresh iss t h ht ih => exact inv_refresh _ iss t ih ht
  | trigger h ih => exact inv_trigger _ ih
  | skip iss t h ht ih => exact inv_skip _ iss t ih
  | postpone d iss t h ht hd ih => exact inv_postpone _ d iss t ih hd
  | snoozeStep ts h ih => exact (inv_presence _ ts ih).1
  | muteStep h ih => exact (inv_presence _ 0 ih).2.1
  | unmuteStep h ih => exact (inv_presence _ 0 ih).2.2
  | setReading b t h ht ih => exact inv_set_reading _ b t ih
  | setTimeToBreak n h hn ih => exact inv_set_time_to_break _ n ih hn
  | setBreakLength n h hn hmode ih => exact inv_set_break_length _ n ih hn hmode

/-- A reachable state violating the claimed bounds: from a fresh start,
force a break, then postpone it by more than the break interval —
`progress_towards_break` becomes negative (−1 ms). -/
def outOfBoundsInfo : IdleInfo :=
  postpone_break (trigger_break (IdleMonitor.new none 0))
    (durationSeconds DEFAULT_TIME_TO_BREAK_SECS + 1) 0 0

/-- C1 counterexample: `outOfBoundsInfo` is reachable through the public
operations, yet its Normal-mode `progress_towards_break` is below 0, so the
claimed invariant fails on the code as stated. -/
theorem reachable_bounds_cex :
    Reachable outOfBoundsInfo ∧ boundsOk outOfBoundsInfo = false := by
  constructor
  · exact Reachable.postpone (durationSeconds DEFAULT_TIME_TO_BREAK_SECS + 1)
      0 0 (Reachable.trigger (Reachable.fresh 0)) (by decide)
  · decide

/-- C1 (amended): the progress counters stay in bounds for every reachable
state, provided postpone durations lie within `[0, time_to_break_secs]`,
setter arguments are non-negative, the break length is not changed during a
Break, restored snapshots carry in-bound timers, and the Normal-mode reset
bound is `max(break_length_secs, DEFAULT_BREAK_LENGTH_SECS)` (the restore
path clamps against the 90 s default rather than the configured length). -/
theorem reachable_safe_bounds (info : IdleInfo) (h : ReachableSafe info) :
    boundsOkAmended info = true :=
  (engineInv_of_reachableSafe h).2.2

/-- Witness for C1: a concrete safely-reachable state (fresh start, one
refresh tick, then a forced break) satisfies the amended bounds. -/
theorem reachable_safe_bounds_witness :
    boundsOkAmended
      (trigger_break (refresh_idle_info (IdleMonitor.new none 0) 0 1000)) =
      true :=
  reachable_safe_bounds _
    (ReachableSafe.trigger
      (ReachableSafe.refresh 0 1000 (ReachableSafe.fresh 0) (by decide)))

end StretchBreak
